import Mathlib

open scoped Classical

/-! Shallow embedding of `jaxopt/proximal_gradient.py`: proximal gradient
descent (FISTA) with optional acceleration and backtracking line search.

Modelling conventions: a point (an arbitrarily nested pytree of numeric
arrays in the source) is a real vector of dimension `n`, the leafwise tree
operations aggregating over coordinates; machine floating-point scalars are
real numbers; the machine epsilon of the objective dtype
(`jnp.finfo(curr_x_fun_val.dtype).eps` in the source) is an explicit
parameter `eps`; the initial error `jnp.inf` is `⊤ : EReal`.  Automatic
differentiation is an external collaborator, so the objective `fun_` comes
with a black-box gradient oracle `grad_fun` (the source's
`jax.value_and_grad(fun)` and `jax.grad(fun)`). -/

/-- A point of the optimization variable: the source's pytree of arrays,
flattened to a real vector of dimension `n`. -/
def Point (n : ℕ) : Type := Fin n → ℝ

/-- Modelled from the spec: `jaxopt.tree_util.tree_add_scalar_mul` (external
tree-utility module, not among the sources): leafwise `x + s * y`. -/
def tree_add_scalar_mul {n : ℕ} (x : Point n) (s : ℝ) (y : Point n) : Point n :=
  fun i => x i + s * y i

/-- Modelled from the spec: `jaxopt.tree_util.tree_sub`: leafwise `x - y`. -/
def tree_sub {n : ℕ} (x y : Point n) : Point n :=
  fun i => x i - y i

/-- Modelled from the spec: `jaxopt.tree_util.tree_vdot`: leafwise products,
aggregated. -/
def tree_vdot {n : ℕ} (x y : Point n) : ℝ :=
  ∑ i, x i * y i

/-- Modelled from the spec: `jaxopt.tree_util.tree_l2_norm` with
`squared=True`: the sum of squared leaves. -/
def tree_l2_norm_sq {n : ℕ} (x : Point n) : ℝ :=
  ∑ i, (x i) ^ 2

/-- Modelled from the spec: `jaxopt.tree_util.tree_l2_norm` (not squared). -/
noncomputable def tree_l2_norm {n : ℕ} (x : Point n) : ℝ :=
  Real.sqrt (tree_l2_norm_sq x)

/-- Modelled from the spec: the bounded loop-with-early-exit primitive
`loop.while_loop(cond_fun, body_fun, init_val, maxiter, unroll, jit)`
(module `jaxopt.loop`, an external collaborator not among the sources):
repeatedly applies `body` while `cond` holds, for at most `maxiter`
iterations, and returns the current value.  The `unroll`/`jit` flags only
select a compilation strategy and have no semantic content. -/
noncomputable def while_loop {α : Type*} (cond : α → Prop) (body : α → α) :
    ℕ → α → α
  | 0, v => v
  | k + 1, v => if cond v then while_loop cond body k (body v) else v

variable {n : ℕ} {Pf Pp : Type}
variable (fun_ : Point n → Pf → ℝ) (grad_fun : Point n → Pf → Point n)
variable (prox : Point n → Pp → ℝ → Point n)
variable (params_fun : Pf) (params_prox : Pp)
variable (stepsize : ℝ) (maxiter maxls : ℕ) (tol stepfactor eps : ℝ)

/-- `prox_grad` (the closure made by `_make_prox_grad`): computes
`prox(curr_x - curr_stepsize * curr_x_fun_grad, params_prox, curr_stepsize)`. -/
def prox_grad (curr_x curr_x_fun_grad : Point n) (curr_stepsize : ℝ) : Point n :=
  prox (tree_add_scalar_mul curr_x (-curr_stepsize) curr_x_fun_grad)
    params_prox curr_stepsize

/-- The line search loop condition (`cond_fun` inside `linesearch`): the
sufficient decrease condition still FAILS at the candidate `args = (next_x,
stepsize)`, so the search must continue shrinking. -/
def ls_cond (curr_x : Point n) (curr_x_fun_val : ℝ) (curr_x_fun_grad : Point n)
    (args : Point n × ℝ) : Prop :=
  args.2 * (fun_ args.1 params_fun - curr_x_fun_val) >
    args.2 * tree_vdot (tree_sub args.1 curr_x) curr_x_fun_grad +
      0.5 * tree_l2_norm_sq (tree_sub args.1 curr_x) + eps

/-- The line search loop body (`body_fun` inside `linesearch`): one shrink
attempt, multiplying the step size by `stepfactor` and recomputing the
candidate point. -/
def ls_body (curr_x curr_x_fun_grad : Point n) (args : Point n × ℝ) :
    Point n × ℝ :=
  (prox_grad prox params_prox curr_x curr_x_fun_grad (args.2 * stepfactor),
    args.2 * stepfactor)

/-- `linesearch` (the closure made by `_make_linesearch`): backtracking line
search from trial step size `curr_stepsize`, bounded by `maxls` shrink
attempts. -/
noncomputable def linesearch (curr_x : Point n) (curr_x_fun_val : ℝ)
    (curr_x_fun_grad : Point n) (curr_stepsize : ℝ) : Point n × ℝ :=
  while_loop (ls_cond fun_ params_fun eps curr_x curr_x_fun_val curr_x_fun_grad)
    (ls_body prox params_prox stepfactor curr_x curr_x_fun_grad)
    maxls
    (prox_grad prox params_prox curr_x curr_x_fun_grad curr_stepsize,
      curr_stepsize)

/-- `error_fun` (inside `_make_pg_body_fun`): the fixed-point residual at
unit step size, `‖prox_grad(curr_x, grad, 1.0) - curr_x‖₂`. -/
noncomputable def error_fun (curr_x curr_x_fun_grad : Point n) : ℝ :=
  tree_l2_norm
    (tree_sub (prox_grad prox params_prox curr_x curr_x_fun_grad 1) curr_x)

/-- `_iter` (inside `_make_pg_body_fun`): one step-selection.  When the
configured `stepsize <= 0`, run the line search and adapt the next trial
step size (reset to `1.0` when it collapsed to `<= 1e-6`, otherwise divide
by `stepfactor`); otherwise take a fixed-size prox-gradient step. -/
noncomputable def _iter (curr_x : Point n) (curr_x_fun_val : ℝ)
    (curr_x_fun_grad : Point n) (curr_stepsize : ℝ) : Point n × ℝ :=
  if stepsize ≤ 0 then
    let r := linesearch fun_ prox params_fun params_prox maxls stepfactor eps
      curr_x curr_x_fun_val curr_x_fun_grad curr_stepsize
    (r.1, if r.2 ≤ 1e-6 then 1 else r.2 / stepfactor)
  else
    (prox_grad prox params_prox curr_x curr_x_fun_grad stepsize, stepsize)

/-- Solver state of the non-accelerated variant: the tuple
`(iter_num, curr_x, curr_stepsize, error)`. -/
structure StatePG (n : ℕ) where
  iter_num : ℕ
  x : Point n
  stepsize : ℝ
  error : EReal

/-- Solver state of the accelerated (FISTA) variant: the tuple
`(iter_num, curr_x, curr_y, curr_t, curr_stepsize, error)`. -/
structure StateAPG (n : ℕ) where
  iter_num : ℕ
  x : Point n
  y : Point n
  t : ℝ
  stepsize : ℝ
  error : EReal

/-- `body_fun_proximal_gradient`: one outer iteration without acceleration.
Evaluates the objective and its gradient at `curr_x`, selects the step via
`_iter`, and stores the fixed-point residual of `curr_x` as the error. -/
noncomputable def body_fun_proximal_gradient (s : StatePG n) : StatePG n :=
  let curr_x_fun_val := fun_ s.x params_fun
  let curr_x_fun_grad := grad_fun s.x params_fun
  let r := _iter fun_ prox params_fun params_prox stepsize maxls stepfactor eps
    s.x curr_x_fun_val curr_x_fun_grad s.stepsize
  let curr_error := error_fun prox params_prox s.x curr_x_fun_grad
  ⟨s.iter_num + 1, r.1, r.2, (curr_error : EReal)⟩

/-- `body_fun_accelerated_proximal_gradient`: one outer FISTA iteration.
Evaluates the objective and its gradient at the extrapolated point `curr_y`,
selects the step via `_iter`, updates the momentum coefficient, extrapolates,
and stores the fixed-point residual of `next_x` (with a freshly computed
gradient at `next_x`) as the error. -/
noncomputable def body_fun_accelerated_proximal_gradient (s : StateAPG n) :
    StateAPG n :=
  let curr_y_fun_val := fun_ s.y params_fun
  let curr_y_fun_grad := grad_fun s.y params_fun
  let r := _iter fun_ prox params_fun params_prox stepsize maxls stepfactor eps
    s.y curr_y_fun_val curr_y_fun_grad s.stepsize
  let next_t := 0.5 * (1 + Real.sqrt (1 + 4 * s.t ^ 2))
  let next_y := tree_add_scalar_mul r.1 ((s.t - 1) / next_t) (tree_sub r.1 s.x)
  let next_x_fun_grad := grad_fun r.1 params_fun
  let next_error := error_fun prox params_prox r.1 next_x_fun_grad
  ⟨s.iter_num + 1, r.1, next_y, next_t, r.2, (next_error : EReal)⟩

/-- `cond_fun` of the outer loop (non-accelerated state): continue while
`error > tol`; the `verbose` print has no semantic content. -/
def cond_fun_pg (s : StatePG n) : Prop := s.error > (tol : EReal)

/-- `cond_fun` of the outer loop (accelerated state): continue while
`error > tol`. -/
def cond_fun_apg (s : StateAPG n) : Prop := s.error > (tol : EReal)

/-- The initial state of `_proximal_gradient` without acceleration:
`(0, init, 1.0, jnp.inf)`. -/
def init_state_pg (init : Point n) : StatePG n := ⟨0, init, 1, ⊤⟩

/-- The initial state of `_proximal_gradient` with acceleration:
`(0, init, init, 1.0, 1.0, jnp.inf)`. -/
def init_state_apg (init : Point n) : StateAPG n := ⟨0, init, init, 1, 1, ⊤⟩

/-- `_proximal_gradient` with `acceleration=False`: the bounded outer loop
from the initial state.  Jit/unroll/verbose flags select execution
strategies only. -/
noncomputable def _proximal_gradient_pg (init : Point n) : StatePG n :=
  while_loop (cond_fun_pg tol)
    (body_fun_proximal_gradient fun_ grad_fun prox params_fun params_prox
      stepsize maxls stepfactor eps)
    maxiter (init_state_pg init)

/-- `_proximal_gradient` with `acceleration=True`: the bounded outer loop
from the initial state. -/
noncomputable def _proximal_gradient_apg (init : Point n) : StateAPG n :=
  while_loop (cond_fun_apg tol)
    (body_fun_accelerated_proximal_gradient fun_ grad_fun prox params_fun
      params_prox stepsize maxls stepfactor eps)
    maxiter (init_state_apg init)

/-- Modelled from the spec: the result record `base.OptimizeResults`
(module `jaxopt.base`, not among the sources): final point, iterations
taken, final error, as packaged by `_proximal_gradient` when `ret_info`. -/
structure OptimizeResults (n : ℕ) where
  x : Point n
  nit : ℕ
  error : EReal

/-- The `ret_info` packaging of the non-accelerated result:
`OptimizeResults(x=res[1], nit=res[0], error=res[-1])`. -/
def ret_results_pg (s : StatePG n) : OptimizeResults n :=
  ⟨s.x, s.iter_num, s.error⟩

/-- `solver_fun` (made by `make_solver_fun`): calls `_proximal_gradient` on
`(params_fun, params_prox)` with the captured configuration.  Both variants
are packaged into the common `OptimizeResults` record; the `ret_info=False`
return value is its `x` projection, and the implicit-differentiation wrapper
changes only how the output is differentiated, not its value. -/
noncomputable def solver_fun (acceleration : Bool)
    (fun_ : Point n → Pf → ℝ) (grad_fun : Point n → Pf → Point n)
    (prox : Point n → Pp → ℝ → Point n) (init : Point n)
    (stepsize : ℝ) (maxiter maxls : ℕ) (tol stepfactor eps : ℝ)
    (params_fun : Pf) (params_prox : Pp) : OptimizeResults n :=
  if acceleration then
    let res := _proximal_gradient_apg fun_ grad_fun prox params_fun params_prox
      stepsize maxiter maxls tol stepfactor eps init
    ⟨res.x, res.iter_num, res.error⟩
  else
    let res := _proximal_gradient_pg fun_ grad_fun prox params_fun params_prox
      stepsize maxiter maxls tol stepfactor eps init
    ⟨res.x, res.iter_num, res.error⟩

/-! Helper lemmas about the bounded loop and the iteration bodies. -/

theorem while_loop_succ_pos {α : Type*} (cond : α → Prop) (body : α → α)
    (k : ℕ) (v : α) (h : cond v) :
    while_loop cond body (k + 1) v = while_loop cond body k (body v) := by
  simp only [while_loop, if_pos h]

theorem while_loop_succ_neg {α : Type*} (cond : α → Prop) (body : α → α)
    (k : ℕ) (v : α) (h : ¬ cond v) :
    while_loop cond body (k + 1) v = v := by
  simp only [while_loop, if_neg h]

/-- At exit, either the loop condition has become false, or the loop ran its
body the full `k` times. -/
theorem while_loop_exit {α : Type*} (cond : α → Prop) (body : α → α) :
    ∀ (k : ℕ) (v : α),
      ¬ cond (while_loop cond body k v) ∨
        while_loop cond body k v = body^[k] v := by
  intro k
  induction k with
  | zero => intro v; exact Or.inr rfl
  | succ m ih =>
    intro v
    by_cases h : cond v
    · rcases ih (body v) with h1 | h1
      · exact Or.inl (by rwa [while_loop_succ_pos cond body m v h])
      · exact Or.inr (by rw [while_loop_succ_pos cond body m v h, h1,
          Function.iterate_succ_apply])
    · exact Or.inl (by rwa [while_loop_succ_neg cond body m v h])

/-- The loop result is always some `j ≤ k`-fold application of the body. -/
theorem while_loop_reached {α : Type*} (cond : α → Prop) (body : α → α) :
    ∀ (k : ℕ) (v : α), ∃ j, j ≤ k ∧ while_loop cond body k v = body^[j] v := by
  intro k
  induction k with
  | zero => intro v; exact ⟨0, le_refl 0, rfl⟩
  | succ m ih =>
    intro v
    by_cases h : cond v
    · rcases ih (body v) with ⟨j, hj, hval⟩
      exact ⟨j + 1, Nat.succ_le_succ hj,
        by rw [while_loop_succ_pos cond body m v h, hval,
          Function.iterate_succ_apply]⟩
    · exact ⟨0, Nat.zero_le _,
        by rw [while_loop_succ_neg cond body m v h, Function.iterate_zero_apply]⟩

/-- Each line-search shrink attempt multiplies the step size by
`stepfactor`. -/
theorem ls_body_iterate_stepsize (curr_x curr_x_fun_grad : Point n) :
    ∀ (j : ℕ) (p : Point n × ℝ),
      ((ls_body prox params_prox stepfactor curr_x curr_x_fun_grad)^[j] p).2 =
        p.2 * stepfactor ^ j := by
  intro j
  induction j with
  | zero => intro p; simp
  | succ m ih =>
    intro p
    rw [Function.iterate_succ_apply, ih]
    show p.2 * stepfactor * stepfactor ^ m = p.2 * stepfactor ^ (m + 1)
    ring

/-- The step size accepted by the line search is positive whenever the trial
step size and the shrink factor are. -/
theorem linesearch_stepsize_pos (hsf : 0 < stepfactor)
    (curr_x : Point n) (curr_x_fun_val : ℝ) (curr_x_fun_grad : Point n)
    (curr_stepsize : ℝ) (hcs : 0 < curr_stepsize) :
    0 < (linesearch fun_ prox params_fun params_prox maxls stepfactor eps
      curr_x curr_x_fun_val curr_x_fun_grad curr_stepsize).2 := by
  obtain ⟨j, hj, hval⟩ := while_loop_reached
    (ls_cond fun_ params_fun eps curr_x curr_x_fun_val curr_x_fun_grad)
    (ls_body prox params_prox stepfactor curr_x curr_x_fun_grad)
    maxls
    (prox_grad prox params_prox curr_x curr_x_fun_grad curr_stepsize,
      curr_stepsize)
  simp only [linesearch]
  rw [hval, ls_body_iterate_stepsize]
  exact mul_pos hcs (pow_pos hsf j)

/-- The step size produced by `_iter` is positive whenever the incoming one
and the shrink factor are. -/
theorem _iter_stepsize_pos (hsf : 0 < stepfactor)
    (curr_x : Point n) (curr_x_fun_val : ℝ) (curr_x_fun_grad : Point n)
    (curr_stepsize : ℝ) (hcs : 0 < curr_stepsize) :
    0 < (_iter fun_ prox params_fun params_prox stepsize maxls stepfactor eps
      curr_x curr_x_fun_val curr_x_fun_grad curr_stepsize).2 := by
  by_cases h : stepsize ≤ 0
  · have hls := linesearch_stepsize_pos fun_ prox params_fun params_prox maxls
      stepfactor eps hsf curr_x curr_x_fun_val curr_x_fun_grad curr_stepsize hcs
    simp only [_iter, if_pos h]
    by_cases h2 : (linesearch fun_ prox params_fun params_prox maxls stepfactor
        eps curr_x curr_x_fun_val curr_x_fun_grad curr_stepsize).2 ≤ 1e-6
    · rw [if_pos h2]; norm_num
    · rw [if_neg h2]; exact div_pos hls hsf
  · simp only [_iter, if_neg h]
    exact lt_of_not_le h

/-- The non-accelerated body increments the iteration count by exactly 1. -/
theorem body_pg_iter_num (s : StatePG n) :
    (body_fun_proximal_gradient fun_ grad_fun prox params_fun params_prox
      stepsize maxls stepfactor eps s).iter_num = s.iter_num + 1 := rfl

/-- The accelerated body increments the iteration count by exactly 1. -/
theorem body_apg_iter_num (s : StateAPG n) :
    (body_fun_accelerated_proximal_gradient fun_ grad_fun prox params_fun
      params_prox stepsize maxls stepfactor eps s).iter_num = s.iter_num + 1 :=
  rfl

/-- Iterating the non-accelerated body `k` times adds `k` to the iteration
count. -/
theorem body_pg_iterate_iter_num :
    ∀ (k : ℕ) (s : StatePG n),
      ((body_fun_proximal_gradient fun_ grad_fun prox params_fun params_prox
        stepsize maxls stepfactor eps)^[k] s).iter_num = s.iter_num + k := by
  intro k
  induction k with
  | zero => intro s; rfl
  | succ m ih =>
    intro s
    rw [Function.iterate_succ_apply, ih]
    show s.iter_num + 1 + m = s.iter_num + (m + 1)
    omega

/-- Iterating the accelerated body `k` times adds `k` to the iteration
count. -/
theorem body_apg_iterate_iter_num :
    ∀ (k : ℕ) (s : StateAPG n),
      ((body_fun_accelerated_proximal_gradient fun_ grad_fun prox params_fun
        params_prox stepsize maxls stepfactor eps)^[k] s).iter_num =
        s.iter_num + k := by
  intro k
  induction k with
  | zero => intro s; rfl
  | succ m ih =>
    intro s
    rw [Function.iterate_succ_apply, ih]
    show s.iter_num + 1 + m = s.iter_num + (m + 1)
    omega

/-- Dot products of tree differences are symmetric in their arguments. -/
theorem tree_vdot_comm {n : ℕ} (x y : Point n) :
    tree_vdot x y = tree_vdot y x := by
  unfold tree_vdot
  exact Finset.sum_congr rfl fun i _ => mul_comm _ _

/-- The L2 norm of a difference does not depend on its orientation. -/
theorem tree_l2_norm_sub_comm {n : ℕ} (x y : Point n) :
    tree_l2_norm (tree_sub x y) = tree_l2_norm (tree_sub y x) := by
  unfold tree_l2_norm tree_l2_norm_sq tree_sub
  congr 1
  exact Finset.sum_congr rfl fun i _ => by ring

/-- C3: for every point `x` the stopping-criterion error is the L2 norm of
`x - prox(x - 1.0 * grad f(x), params_prox, 1.0)`, the fixed-point residual
at unit step size, and the accelerated body evaluates this error at `x_next`
with a gradient freshly computed at `x_next` (not the gradient computed at
the extrapolated point `y`). -/
theorem error_fun_fixed_point_residual :
    (∀ x : Point n,
      error_fun prox params_prox x (grad_fun x params_fun) =
        tree_l2_norm (tree_sub x
          (prox (tree_add_scalar_mul x (-1) (grad_fun x params_fun))
            params_prox 1))) ∧
    (∀ s : StateAPG n,
      (body_fun_accelerated_proximal_gradient fun_ grad_fun prox params_fun
          params_prox stepsize maxls stepfactor eps s).error =
        ((error_fun prox params_prox
          (body_fun_accelerated_proximal_gradient fun_ grad_fun prox params_fun
            params_prox stepsize maxls stepfactor eps s).x
          (grad_fun
            (body_fun_accelerated_proximal_gradient fun_ grad_fun prox
              params_fun params_prox stepsize maxls stepfactor eps s).x
            params_fun) : ℝ) : EReal)) := by
  constructor
  · intro x
    unfold error_fun
    rw [tree_l2_norm_sub_comm]
    rfl
  · intro s
    rfl

/-- C4: every accelerated iteration updates the momentum coefficient as
`t_next = 0.5 * (1 + sqrt(1 + 4 * t^2))` and extrapolates as
`y_next = x_next + ((t - 1) / t_next) * (x_next - x)`, `x` being the
previous main iterate and `x_next` the new one (stated both through the
tree operations and leafwise). -/
theorem accelerated_momentum_extrapolation :
    ∀ s : StateAPG n,
      (body_fun_accelerated_proximal_gradient fun_ grad_fun prox params_fun
          params_prox stepsize maxls stepfactor eps s).t =
        0.5 * (1 + Real.sqrt (1 + 4 * s.t ^ 2)) ∧
      (body_fun_accelerated_proximal_gradient fun_ grad_fun prox params_fun
          params_prox stepsize maxls stepfactor eps s).y =
        tree_add_scalar_mul
          (body_fun_accelerated_proximal_gradient fun_ grad_fun prox params_fun
            params_prox stepsize maxls stepfactor eps s).x
          ((s.t - 1) /
            (body_fun_accelerated_proximal_gradient fun_ grad_fun prox
              params_fun params_prox stepsize maxls stepfactor eps s).t)
          (tree_sub
            (body_fun_accelerated_proximal_gradient fun_ grad_fun prox
              params_fun params_prox stepsize maxls stepfactor eps s).x
            s.x) ∧
      ∀ i : Fin n,
        (body_fun_accelerated_proximal_gradient fun_ grad_fun prox params_fun
            params_prox stepsize maxls stepfactor eps s).y i =
          (body_fun_accelerated_proximal_gradient fun_ grad_fun prox params_fun
              params_prox stepsize maxls stepfactor eps s).x i +
            ((s.t - 1) /
              (body_fun_accelerated_proximal_gradient fun_ grad_fun prox
                params_fun params_prox stepsize maxls stepfactor eps s).t) *
            ((body_fun_accelerated_proximal_gradient fun_ grad_fun prox
                params_fun params_prox stepsize maxls stepfactor eps s).x i -
              s.x i) :=
  fun _ => ⟨rfl, rfl, fun _ => rfl⟩

/-- C9: the non-accelerated body stores as error the fixed-point residual of
the point the iteration started from (`curr_x`), while returning the new
point `x_next` as its state's `x`; hence the `ret_info` packaging of such a
state reports the error of the iterate one step before the reported point.
The accelerated body instead stores the residual of the very point it
returns. -/
theorem error_lags_point_non_accelerated :
    (∀ s : StatePG n,
      (body_fun_proximal_gradient fun_ grad_fun prox params_fun params_prox
          stepsize maxls stepfactor eps s).error =
        ((error_fun prox params_prox s.x (grad_fun s.x params_fun) : ℝ) :
          EReal) ∧
      (body_fun_proximal_gradient fun_ grad_fun prox params_fun params_prox
          stepsize maxls stepfactor eps s).x =
        (_iter fun_ prox params_fun params_prox stepsize maxls stepfactor eps
          s.x (fun_ s.x params_fun) (grad_fun s.x params_fun) s.stepsize).1) ∧
    (∀ s : StateAPG n,
      (body_fun_accelerated_proximal_gradient fun_ grad_fun prox params_fun
          params_prox stepsize maxls stepfactor eps s).error =
        ((error_fun prox params_prox
          (body_fun_accelerated_proximal_gradient fun_ grad_fun prox params_fun
            params_prox stepsize maxls stepfactor eps s).x
          (grad_fun
            (body_fun_accelerated_proximal_gradient fun_ grad_fun prox
              params_fun params_prox stepsize maxls stepfactor eps s).x
            params_fun) : ℝ) : EReal)) ∧
    (∀ s : StatePG n,
      (ret_results_pg (body_fun_proximal_gradient fun_ grad_fun prox params_fun
          params_prox stepsize maxls stepfactor eps s)).error =
        ((error_fun prox params_prox s.x (grad_fun s.x params_fun) : ℝ) :
          EReal) ∧
      (ret_results_pg (body_fun_proximal_gradient fun_ grad_fun prox params_fun
          params_prox stepsize maxls stepfactor eps s)).x =
        (body_fun_proximal_gradient fun_ grad_fun prox params_fun params_prox
          stepsize maxls stepfactor eps s).x) :=
  ⟨fun _ => ⟨rfl, rfl⟩, fun _ => rfl, fun _ => ⟨rfl, rfl⟩⟩

/-- C6: with a fixed positive configured step size, `_iter` computes the next
point as `prox(x - stepsize * grad f(x), params_prox, stepsize)` and returns
the configured step size unchanged, so the step-size component of the state
produced by either body always equals the configured `stepsize`. -/
theorem fixed_stepsize_no_linesearch (h : 0 < stepsize) :
    (∀ (curr_x : Point n) (curr_x_fun_val : ℝ) (curr_x_fun_grad : Point n)
        (curr_stepsize : ℝ),
      _iter fun_ prox params_fun params_prox stepsize maxls stepfactor eps
          curr_x curr_x_fun_val curr_x_fun_grad curr_stepsize =
        (prox (tree_add_scalar_mul curr_x (-stepsize) curr_x_fun_grad)
          params_prox stepsize, stepsize)) ∧
    (∀ s : StatePG n,
      (body_fun_proximal_gradient fun_ grad_fun prox params_fun params_prox
        stepsize maxls stepfactor eps s).stepsize = stepsize) ∧
    (∀ s : StateAPG n,
      (body_fun_accelerated_proximal_gradient fun_ grad_fun prox params_fun
        params_prox stepsize maxls stepfactor eps s).stepsize = stepsize) := by
  have hns : ¬ stepsize ≤ 0 := not_le.mpr h
  refine ⟨?_, ?_, ?_⟩
  · intro curr_x curr_x_fun_val curr_x_fun_grad curr_stepsize
    simp only [_iter, if_neg hns]
    rfl
  · intro s
    show (_iter fun_ prox params_fun params_prox stepsize maxls stepfactor eps
      s.x (fun_ s.x params_fun) (grad_fun s.x params_fun) s.stepsize).2 =
      stepsize
    simp only [_iter, if_neg hns]
  · intro s
    show (_iter fun_ prox params_fun params_prox stepsize maxls stepfactor eps
      s.y (fun_ s.y params_fun) (grad_fun s.y params_fun) s.stepsize).2 =
      stepsize
    simp only [_iter, if_neg hns]

/-- C5: with a configured step size `<= 0`, every outer iteration (of either
variant) obtains its next point from the backtracking line search, and the
next trial step size is `1.0` when the accepted step size is at or below
the floor `1e-6`, and the accepted step size divided by the shrink factor
otherwise. -/
theorem linesearch_stepsize_adaptation (h : stepsize ≤ 0) :
    (∀ s : StatePG n,
      (body_fun_proximal_gradient fun_ grad_fun prox params_fun params_prox
          stepsize maxls stepfactor eps s).x =
        (linesearch fun_ prox params_fun params_prox maxls stepfactor eps
          s.x (fun_ s.x params_fun) (grad_fun s.x params_fun) s.stepsize).1 ∧
      (body_fun_proximal_gradient fun_ grad_fun prox params_fun params_prox
          stepsize maxls stepfactor eps s).stepsize =
        (if (linesearch fun_ prox params_fun params_prox maxls stepfactor eps
              s.x (fun_ s.x params_fun) (grad_fun s.x params_fun)
              s.stepsize).2 ≤ 1e-6 then (1 : ℝ)
         else (linesearch fun_ prox params_fun params_prox maxls stepfactor eps
            s.x (fun_ s.x params_fun) (grad_fun s.x params_fun)
            s.stepsize).2 / stepfactor)) ∧
    (∀ s : StateAPG n,
      (body_fun_accelerated_proximal_gradient fun_ grad_fun prox params_fun
          params_prox stepsize maxls stepfactor eps s).x =
        (linesearch fun_ prox params_fun params_prox maxls stepfactor eps
          s.y (fun_ s.y params_fun) (grad_fun s.y params_fun) s.stepsize).1 ∧
      (body_fun_accelerated_proximal_gradient fun_ grad_fun prox params_fun
          params_prox stepsize maxls stepfactor eps s).stepsize =
        (if (linesearch fun_ prox params_fun params_prox maxls stepfactor eps
              s.y (fun_ s.y params_fun) (grad_fun s.y params_fun)
              s.stepsize).2 ≤ 1e-6 then (1 : ℝ)
         else (linesearch fun_ prox params_fun params_prox maxls stepfactor eps
            s.y (fun_ s.y params_fun) (grad_fun s.y params_fun)
            s.stepsize).2 / stepfactor)) := by
  constructor
  · intro s
    constructor
    · show (_iter fun_ prox params_fun params_prox stepsize maxls stepfactor
        eps s.x (fun_ s.x params_fun) (grad_fun s.x params_fun) s.stepsize).1 =
        _
      simp only [_iter, if_pos h]
    · show (_iter fun_ prox params_fun params_prox stepsize maxls stepfactor
        eps s.x (fun_ s.x params_fun) (grad_fun s.x params_fun) s.stepsize).2 =
        _
      simp only [_iter, if_pos h]
  · intro s
    constructor
    · show (_iter fun_ prox params_fun params_prox stepsize maxls stepfactor
        eps s.y (fun_ s.y params_fun) (grad_fun s.y params_fun) s.stepsize).1 =
        _
      simp only [_iter, if_pos h]
    · show (_iter fun_ prox params_fun params_prox stepsize maxls stepfactor
        eps s.y (fun_ s.y params_fun) (grad_fun s.y params_fun) s.stepsize).2 =
        _
      simp only [_iter, if_pos h]

/-- C8: the solver function is deterministic — two invocations with an
identical objective, gradient oracle, proximity operator, initial point and
configuration, and with equal `params_fun` and `params_prox`, return
identical outputs; no hidden state is carried between calls (the embedding
is purely functional, as is the source, whose closures capture only
immutable configuration). -/
theorem solver_fun_deterministic (acceleration : Bool) (init : Point n)
    (params_fun1 params_fun2 : Pf) (params_prox1 params_prox2 : Pp)
    (h1 : params_fun1 = params_fun2) (h2 : params_prox1 = params_prox2) :
    solver_fun acceleration fun_ grad_fun prox init stepsize maxiter maxls tol
        stepfactor eps params_fun1 params_prox1 =
      solver_fun acceleration fun_ grad_fun prox init stepsize maxiter maxls
        tol stepfactor eps params_fun2 params_prox2 := by
  rw [h1, h2]

/-- The accelerated body preserves positivity of the step size (given a
positive shrink factor). -/
theorem body_apg_stepsize_pos (hsf : 0 < stepfactor) (s : StateAPG n)
    (hs : 0 < s.stepsize) :
    0 < (body_fun_accelerated_proximal_gradient fun_ grad_fun prox params_fun
      params_prox stepsize maxls stepfactor eps s).stepsize :=
  _iter_stepsize_pos fun_ prox params_fun params_prox stepsize maxls stepfactor
    eps hsf s.y (fun_ s.y params_fun) (grad_fun s.y params_fun) s.stepsize hs

/-- The non-accelerated body preserves positivity of the step size (given a
positive shrink factor). -/
theorem body_pg_stepsize_pos (hsf : 0 < stepfactor) (s : StatePG n)
    (hs : 0 < s.stepsize) :
    0 < (body_fun_proximal_gradient fun_ grad_fun prox params_fun params_prox
      stepsize maxls stepfactor eps s).stepsize :=
  _iter_stepsize_pos fun_ prox params_fun params_prox stepsize maxls stepfactor
    eps hsf s.x (fun_ s.x params_fun) (grad_fun s.x params_fun) s.stepsize hs

/-- The error stored by the accelerated body is a nonnegative extended
real. -/
theorem body_apg_error_nonneg (s : StateAPG n) :
    0 ≤ (body_fun_accelerated_proximal_gradient fun_ grad_fun prox params_fun
      params_prox stepsize maxls stepfactor eps s).error := by
  show (0 : EReal) ≤
    ((error_fun prox params_prox
      (_iter fun_ prox params_fun params_prox stepsize maxls stepfactor eps
        s.y (fun_ s.y params_fun) (grad_fun s.y params_fun) s.stepsize).1
      (grad_fun
        (_iter fun_ prox params_fun params_prox stepsize maxls stepfactor eps
          s.y (fun_ s.y params_fun) (grad_fun s.y params_fun) s.stepsize).1
        params_fun) : ℝ) : EReal)
  exact_mod_cast Real.sqrt_nonneg _

/-- The error stored by the non-accelerated body is a nonnegative extended
real. -/
theorem body_pg_error_nonneg (s : StatePG n) :
    0 ≤ (body_fun_proximal_gradient fun_ grad_fun prox params_fun params_prox
      stepsize maxls stepfactor eps s).error := by
  show (0 : EReal) ≤
    ((error_fun prox params_prox s.x (grad_fun s.x params_fun) : ℝ) : EReal)
  exact_mod_cast Real.sqrt_nonneg _

/-- The momentum update always produces a coefficient of at least 1. -/
theorem body_apg_t_ge_one (s : StateAPG n) :
    1 ≤ (body_fun_accelerated_proximal_gradient fun_ grad_fun prox params_fun
      params_prox stepsize maxls stepfactor eps s).t := by
  show (1 : ℝ) ≤ 0.5 * (1 + Real.sqrt (1 + 4 * s.t ^ 2))
  have h2 : Real.sqrt 1 ≤ Real.sqrt (1 + 4 * s.t ^ 2) :=
    Real.sqrt_le_sqrt (by nlinarith [sq_nonneg s.t])
  rw [Real.sqrt_one] at h2
  linarith

/-- C7: every solver state reachable from the initial state by `k`
applications of the iteration body satisfies `step_size > 0`, `error >= 0`,
an iteration count that has increased by exactly 1 per outer step (so it
equals `k`), and — in the accelerated variant — a momentum coefficient
`t >= 1`; the per-step increments are also stated directly. -/
theorem reachable_state_invariants (init : Point n) (hsf : 0 < stepfactor) :
    (∀ k : ℕ,
      0 < ((body_fun_accelerated_proximal_gradient fun_ grad_fun prox
          params_fun params_prox stepsize maxls stepfactor eps)^[k]
          (init_state_apg init)).stepsize ∧
      0 ≤ ((body_fun_accelerated_proximal_gradient fun_ grad_fun prox
          params_fun params_prox stepsize maxls stepfactor eps)^[k]
          (init_state_apg init)).error ∧
      ((body_fun_accelerated_proximal_gradient fun_ grad_fun prox params_fun
          params_prox stepsize maxls stepfactor eps)^[k]
          (init_state_apg init)).iter_num = k ∧
      1 ≤ ((body_fun_accelerated_proximal_gradient fun_ grad_fun prox
          params_fun params_prox stepsize maxls stepfactor eps)^[k]
          (init_state_apg init)).t) ∧
    (∀ s : StateAPG n,
      (body_fun_accelerated_proximal_gradient fun_ grad_fun prox params_fun
        params_prox stepsize maxls stepfactor eps s).iter_num =
        s.iter_num + 1) ∧
    (∀ k : ℕ,
      0 < ((body_fun_proximal_gradient fun_ grad_fun prox params_fun
          params_prox stepsize maxls stepfactor eps)^[k]
          (init_state_pg init)).stepsize ∧
      0 ≤ ((body_fun_proximal_gradient fun_ grad_fun prox params_fun
          params_prox stepsize maxls stepfactor eps)^[k]
          (init_state_pg init)).error ∧
      ((body_fun_proximal_gradient fun_ grad_fun prox params_fun params_prox
          stepsize maxls stepfactor eps)^[k]
          (init_state_pg init)).iter_num = k) ∧
    (∀ s : StatePG n,
      (body_fun_proximal_gradient fun_ grad_fun prox params_fun params_prox
        stepsize maxls stepfactor eps s).iter_num = s.iter_num + 1) := by
  refine ⟨?_, fun s => rfl, ?_, fun s => rfl⟩
  · intro k
    induction k with
    | zero =>
      refine ⟨one_pos, le_top, rfl, le_refl 1⟩
    | succ m ih =>
      rw [Function.iterate_succ_apply']
      refine ⟨body_apg_stepsize_pos fun_ grad_fun prox params_fun params_prox
          stepsize maxls stepfactor eps hsf _ ih.1,
        body_apg_error_nonneg fun_ grad_fun prox params_fun params_prox
          stepsize maxls stepfactor eps _,
        ?_,
        body_apg_t_ge_one fun_ grad_fun prox params_fun params_prox stepsize
          maxls stepfactor eps _⟩
      rw [body_apg_iter_num, ih.2.2.1]
  · intro k
    induction k with
    | zero =>
      refine ⟨one_pos, le_top, rfl⟩
    | succ m ih =>
      rw [Function.iterate_succ_apply']
      refine ⟨body_pg_stepsize_pos fun_ grad_fun prox params_fun params_prox
          stepsize maxls stepfactor eps hsf _ ih.1,
        body_pg_error_nonneg fun_ grad_fun prox params_fun params_prox
          stepsize maxls stepfactor eps _,
        ?_⟩
      rw [body_pg_iter_num, ih.2.2]

/-- C1: for every input point, objective value, gradient and positive trial
step size, the pair returned by the backtracking line search either
satisfies the sufficient-decrease inequality
`step_size * (f(x_next) - f_x) <= step_size * <grad_x, x_next - x>
 + 0.5 * ||x_next - x||^2 + eps`
(`eps` the machine epsilon of the objective dtype, here a parameter), or the
result is the `maxls`-fold application of the shrink body to the initial
candidate — that is, the search performed the maximum number `maxls` of
shrink attempts. -/
theorem linesearch_sufficient_decrease (curr_x : Point n)
    (curr_x_fun_val : ℝ) (curr_x_fun_grad : Point n) (curr_stepsize : ℝ)
    (_h : 0 < curr_stepsize) :
    ((linesearch fun_ prox params_fun params_prox maxls stepfactor eps curr_x
          curr_x_fun_val curr_x_fun_grad curr_stepsize).2 *
        (fun_ (linesearch fun_ prox params_fun params_prox maxls stepfactor eps
            curr_x curr_x_fun_val curr_x_fun_grad curr_stepsize).1 params_fun -
          curr_x_fun_val) ≤
      (linesearch fun_ prox params_fun params_prox maxls stepfactor eps curr_x
          curr_x_fun_val curr_x_fun_grad curr_stepsize).2 *
          tree_vdot curr_x_fun_grad
            (tree_sub (linesearch fun_ prox params_fun params_prox maxls
              stepfactor eps curr_x curr_x_fun_val curr_x_fun_grad
              curr_stepsize).1 curr_x) +
        0.5 * tree_l2_norm_sq
          (tree_sub (linesearch fun_ prox params_fun params_prox maxls
            stepfactor eps curr_x curr_x_fun_val curr_x_fun_grad
            curr_stepsize).1 curr_x) + eps) ∨
    linesearch fun_ prox params_fun params_prox maxls stepfactor eps curr_x
        curr_x_fun_val curr_x_fun_grad curr_stepsize =
      (ls_body prox params_prox stepfactor curr_x curr_x_fun_grad)^[maxls]
        (prox_grad prox params_prox curr_x curr_x_fun_grad curr_stepsize,
          curr_stepsize) := by
  rcases while_loop_exit
      (ls_cond fun_ params_fun eps curr_x curr_x_fun_val curr_x_fun_grad)
      (ls_body prox params_prox stepfactor curr_x curr_x_fun_grad) maxls
      (prox_grad prox params_prox curr_x curr_x_fun_grad curr_stepsize,
        curr_stepsize) with h1 | h1
  · left
    simp only [ls_cond, not_lt] at h1
    rw [tree_vdot_comm curr_x_fun_grad]
    exact h1
  · right
    exact h1

/-- C2: for every tolerance `tol > 0` and every `maxiter`, the outer loop
(a total function on the fuel `maxiter`, so it terminates and exhausting
`maxiter` returns the final state normally rather than raising) exits with
`error <= tol` or with an iteration count equal to `maxiter`, in both
variants. -/
theorem outer_loop_exit (init : Point n) (_h : 0 < tol) :
    ((_proximal_gradient_apg fun_ grad_fun prox params_fun params_prox stepsize
        maxiter maxls tol stepfactor eps init).error ≤ (tol : EReal) ∨
      (_proximal_gradient_apg fun_ grad_fun prox params_fun params_prox
        stepsize maxiter maxls tol stepfactor eps init).iter_num = maxiter) ∧
    ((_proximal_gradient_pg fun_ grad_fun prox params_fun params_prox stepsize
        maxiter maxls tol stepfactor eps init).error ≤ (tol : EReal) ∨
      (_proximal_gradient_pg fun_ grad_fun prox params_fun params_prox stepsize
        maxiter maxls tol stepfactor eps init).iter_num = maxiter) := by
  constructor
  · simp only [_proximal_gradient_apg]
    rcases while_loop_exit (cond_fun_apg tol)
        (body_fun_accelerated_proximal_gradient fun_ grad_fun prox params_fun
          params_prox stepsize maxls stepfactor eps) maxiter
        (init_state_apg init) with h1 | h1
    · left
      simp only [cond_fun_apg, not_lt] at h1
      exact h1
    · right
      rw [h1, body_apg_iterate_iter_num]
      exact Nat.zero_add maxiter
  · simp only [_proximal_gradient_pg]
    rcases while_loop_exit (cond_fun_pg tol)
        (body_fun_proximal_gradient fun_ grad_fun prox params_fun params_prox
          stepsize maxls stepfactor eps) maxiter
        (init_state_pg init) with h1 | h1
    · left
      simp only [cond_fun_pg, not_lt] at h1
      exact h1
    · right
      rw [h1, body_pg_iterate_iter_num]
      exact Nat.zero_add maxiter

/-- C10: the initial state's error is `+infinity`, so the loop condition
`error > tol` holds at entry for every (finite, real) tolerance; hence with
`maxiter >= 1` the solver executes the iteration body at least once — even
when the initial point is already an exact fixed point of the
proximal-gradient map, since the statement quantifies over all objectives,
gradients, proximity operators and initial points — while with `maxiter = 0`
it returns the initial state untouched. -/
theorem loop_runs_at_least_once (init : Point n) (h : 1 ≤ maxiter) :
    cond_fun_apg tol (init_state_apg init) ∧
    cond_fun_pg tol (init_state_pg init) ∧
    1 ≤ (_proximal_gradient_apg fun_ grad_fun prox params_fun params_prox
      stepsize maxiter maxls tol stepfactor eps init).iter_num ∧
    1 ≤ (_proximal_gradient_pg fun_ grad_fun prox params_fun params_prox
      stepsize maxiter maxls tol stepfactor eps init).iter_num ∧
    _proximal_gradient_apg fun_ grad_fun prox params_fun params_prox stepsize
      0 maxls tol stepfactor eps init = init_state_apg init ∧
    _proximal_gradient_pg fun_ grad_fun prox params_fun params_prox stepsize
      0 maxls tol stepfactor eps init = init_state_pg init := by
  obtain ⟨m, rfl⟩ : ∃ m, maxiter = m + 1 := ⟨maxiter - 1, by omega⟩
  have hca : cond_fun_apg tol (init_state_apg init) := EReal.coe_lt_top tol
  have hcp : cond_fun_pg tol (init_state_pg init) := EReal.coe_lt_top tol
  refine ⟨hca, hcp, ?_, ?_, rfl, rfl⟩
  · simp only [_proximal_gradient_apg]
    rw [while_loop_succ_pos _ _ m _ hca]
    obtain ⟨j, hj, hval⟩ := while_loop_reached (cond_fun_apg tol)
      (body_fun_accelerated_proximal_gradient fun_ grad_fun prox params_fun
        params_prox stepsize maxls stepfactor eps) m
      (body_fun_accelerated_proximal_gradient fun_ grad_fun prox params_fun
        params_prox stepsize maxls stepfactor eps (init_state_apg init))
    rw [hval, body_apg_iterate_iter_num, body_apg_iter_num]
    show 1 ≤ 0 + 1 + j
    omega
  · simp only [_proximal_gradient_pg]
    rw [while_loop_succ_pos _ _ m _ hcp]
    obtain ⟨j, hj, hval⟩ := while_loop_reached (cond_fun_pg tol)
      (body_fun_proximal_gradient fun_ grad_fun prox params_fun params_prox
        stepsize maxls stepfactor eps) m
      (body_fun_proximal_gradient fun_ grad_fun prox params_fun params_prox
        stepsize maxls stepfactor eps (init_state_pg init))
    rw [hval, body_pg_iterate_iter_num, body_pg_iter_num]
    show 1 ≤ 0 + 1 + j
    omega

/-- A constant-zero objective on one-dimensional points, for concrete
instantiations. -/
def zero_fun : Point 1 → Unit → ℝ := fun _ _ => 0

/-- A gradient oracle that is identically zero (the gradient of
`zero_fun`). -/
def zero_grad : Point 1 → Unit → Point 1 := fun _ _ _ => 0

/-- The identity proximity operator (the source's `prox_none`: no proximal
term). -/
def prox_none : Point 1 → Unit → ℝ → Point 1 := fun v _ _ => v

/-- The origin of the one-dimensional point space. -/
def origin : Point 1 := fun _ => 0

/-- Witness for C1 at a concrete instance: zero objective, zero gradient,
identity prox, trial step size 1. -/
theorem linesearch_sufficient_decrease_witness :
    0 < (1 : ℝ) ∧
    (((linesearch zero_fun prox_none () () 15 0.5 1 origin 0 origin 1).2 *
        (zero_fun (linesearch zero_fun prox_none () () 15 0.5 1 origin 0 origin
          1).1 () - 0) ≤
      (linesearch zero_fun prox_none () () 15 0.5 1 origin 0 origin 1).2 *
          tree_vdot origin
            (tree_sub (linesearch zero_fun prox_none () () 15 0.5 1 origin 0
              origin 1).1 origin) +
        0.5 * tree_l2_norm_sq
          (tree_sub (linesearch zero_fun prox_none () () 15 0.5 1 origin 0
            origin 1).1 origin) + 1) ∨
    linesearch zero_fun prox_none () () 15 0.5 1 origin 0 origin 1 =
      (ls_body prox_none () 0.5 origin origin)^[15]
        (prox_grad prox_none () origin origin 1, 1)) :=
  ⟨one_pos, linesearch_sufficient_decrease zero_fun prox_none () () 15 0.5 1
    origin 0 origin 1 one_pos⟩

/-- Witness for C2 at a concrete instance: fixed step size 1, tolerance 1,
one outer iteration allowed. -/
theorem outer_loop_exit_witness :
    0 < (1 : ℝ) ∧
    (((_proximal_gradient_apg zero_fun zero_grad prox_none () () 1 1 15 1 0.5 1
        origin).error ≤ ((1 : ℝ) : EReal) ∨
      (_proximal_gradient_apg zero_fun zero_grad prox_none () () 1 1 15 1 0.5 1
        origin).iter_num = 1) ∧
    ((_proximal_gradient_pg zero_fun zero_grad prox_none () () 1 1 15 1 0.5 1
        origin).error ≤ ((1 : ℝ) : EReal) ∨
      (_proximal_gradient_pg zero_fun zero_grad prox_none () () 1 1 15 1 0.5 1
        origin).iter_num = 1)) :=
  ⟨one_pos, outer_loop_exit zero_fun zero_grad prox_none () () 1 1 15 1 0.5 1
    origin one_pos⟩

/-- Witness for C6 at a concrete instance: fixed step size 1. -/
theorem fixed_stepsize_no_linesearch_witness :
    0 < (1 : ℝ) ∧
    ((∀ (curr_x : Point 1) (curr_x_fun_val : ℝ) (curr_x_fun_grad : Point 1)
        (curr_stepsize : ℝ),
      _iter zero_fun prox_none () () 1 15 0.5 1
          curr_x curr_x_fun_val curr_x_fun_grad curr_stepsize =
        (prox_none (tree_add_scalar_mul curr_x (-1) curr_x_fun_grad)
          () 1, 1)) ∧
    (∀ s : StatePG 1,
      (body_fun_proximal_gradient zero_fun zero_grad prox_none () ()
        1 15 0.5 1 s).stepsize = 1) ∧
    (∀ s : StateAPG 1,
      (body_fun_accelerated_proximal_gradient zero_fun zero_grad prox_none ()
        () 1 15 0.5 1 s).stepsize = 1)) :=
  ⟨one_pos, fixed_stepsize_no_linesearch zero_fun zero_grad prox_none () () 1
    15 0.5 1 one_pos⟩

/-- Witness for C8 at a concrete instance. -/
theorem solver_fun_deterministic_witness :
    (() = ()) ∧ (() = ()) ∧
    solver_fun true zero_fun zero_grad prox_none origin 1 1 15 1 0.5 1 () () =
      solver_fun true zero_fun zero_grad prox_none origin 1 1 15 1 0.5 1 ()
        () :=
  ⟨rfl, rfl, solver_fun_deterministic zero_fun zero_grad prox_none 1 1 15 1 0.5
    1 true origin () () () () rfl rfl⟩

/-- Witness for C10 at a concrete instance: `maxiter = 1`. -/
theorem loop_runs_at_least_once_witness :
    1 ≤ 1 ∧
    (cond_fun_apg 1 (init_state_apg origin) ∧
    cond_fun_pg 1 (init_state_pg origin) ∧
    1 ≤ (_proximal_gradient_apg zero_fun zero_grad prox_none () ()
      1 1 15 1 0.5 1 origin).iter_num ∧
    1 ≤ (_proximal_gradient_pg zero_fun zero_grad prox_none () ()
      1 1 15 1 0.5 1 origin).iter_num ∧
    _proximal_gradient_apg zero_fun zero_grad prox_none () () 1
      0 15 1 0.5 1 origin = init_state_apg origin ∧
    _proximal_gradient_pg zero_fun zero_grad prox_none () () 1
      0 15 1 0.5 1 origin = init_state_pg origin) :=
  ⟨le_refl 1, loop_runs_at_least_once zero_fun zero_grad prox_none () () 1 1 15
    1 0.5 1 origin (le_refl 1)⟩

/-- Witness for C5 at a concrete instance: configured step size 0 (line
search enabled). -/
theorem linesearch_stepsize_adaptation_witness :
    (0 : ℝ) ≤ 0 ∧
    ((∀ s : StatePG 1,
      (body_fun_proximal_gradient zero_fun zero_grad prox_none () ()
          0 15 0.5 1 s).x =
        (linesearch zero_fun prox_none () () 15 0.5 1
          s.x (zero_fun s.x ()) (zero_grad s.x ()) s.stepsize).1 ∧
      (body_fun_proximal_gradient zero_fun zero_grad prox_none () ()
          0 15 0.5 1 s).stepsize =
        (if (linesearch zero_fun prox_none () () 15 0.5 1
              s.x (zero_fun s.x ()) (zero_grad s.x ())
              s.stepsize).2 ≤ 1e-6 then (1 : ℝ)
         else (linesearch zero_fun prox_none () () 15 0.5 1
            s.x (zero_fun s.x ()) (zero_grad s.x ())
            s.stepsize).2 / 0.5)) ∧
    (∀ s : StateAPG 1,
      (body_fun_accelerated_proximal_gradient zero_fun zero_grad prox_none ()
          () 0 15 0.5 1 s).x =
        (linesearch zero_fun prox_none () () 15 0.5 1
          s.y (zero_fun s.y ()) (zero_grad s.y ()) s.stepsize).1 ∧
      (body_fun_accelerated_proximal_gradient zero_fun zero_grad prox_none ()
          () 0 15 0.5 1 s).stepsize =
        (if (linesearch zero_fun prox_none () () 15 0.5 1
              s.y (zero_fun s.y ()) (zero_grad s.y ())
              s.stepsize).2 ≤ 1e-6 then (1 : ℝ)
         else (linesearch zero_fun prox_none () () 15 0.5 1
            s.y (zero_fun s.y ()) (zero_grad s.y ())
            s.stepsize).2 / 0.5))) :=
  ⟨le_refl 0, linesearch_stepsize_adaptation zero_fun zero_grad prox_none () ()
    0 15 0.5 1 (le_refl 0)⟩

/-- Witness for C7 at a concrete instance: shrink factor `0.5`, starting
from the origin. -/
theorem reachable_state_invariants_witness :
    0 < (0.5 : ℝ) ∧
    ((∀ k : ℕ,
      0 < ((body_fun_accelerated_proximal_gradient zero_fun zero_grad
          prox_none () () 1 15 0.5 1)^[k]
          (init_state_apg origin)).stepsize ∧
      0 ≤ ((body_fun_accelerated_proximal_gradient zero_fun zero_grad
          prox_none () () 1 15 0.5 1)^[k]
          (init_state_apg origin)).error ∧
      ((body_fun_accelerated_proximal_gradient zero_fun zero_grad prox_none ()
          () 1 15 0.5 1)^[k]
          (init_state_apg origin)).iter_num = k ∧
      1 ≤ ((body_fun_accelerated_proximal_gradient zero_fun zero_grad
          prox_none () () 1 15 0.5 1)^[k]
          (init_state_apg origin)).t) ∧
    (∀ s : StateAPG 1,
      (body_fun_accelerated_proximal_gradient zero_fun zero_grad prox_none ()
        () 1 15 0.5 1 s).iter_num =
        s.iter_num + 1) ∧
    (∀ k : ℕ,
      0 < ((body_fun_proximal_gradient zero_fun zero_grad prox_none ()
          () 1 15 0.5 1)^[k]
          (init_state_pg origin)).stepsize ∧
      0 ≤ ((body_fun_proximal_gradient zero_fun zero_grad prox_none ()
          () 1 15 0.5 1)^[k]
          (init_state_pg origin)).error ∧
      ((body_fun_proximal_gradient zero_fun zero_grad prox_none () ()
          1 15 0.5 1)^[k]
          (init_state_pg origin)).iter_num = k) ∧
    (∀ s : StatePG 1,
      (body_fun_proximal_gradient zero_fun zero_grad prox_none () ()
        1 15 0.5 1 s).iter_num = s.iter_num + 1)) :=
  ⟨by norm_num, reachable_state_invariants zero_fun zero_grad prox_none () () 1
    15 0.5 1 origin (by norm_num)⟩
